import Mathlib

set_option maxRecDepth 8000

/-!
Shallow embedding of the IPMI BMC emulator engine of this repository
(src/lanserv/serv.c together with the byte codecs of src/ipmi_utils.c).

Modelling conventions:
* C bytes are `Nat` (always < 256 on the paths the theorems use),
  C buffers (`msg->data`, `rdata`, record data) are `List Nat`;
  out-of-range reads use `List.getD _ _ 0` and are only exercised where
  the C code stays in bounds.
* The singly linked record lists (`sel_entry_t *`, `sdr_t *`) are Lean
  lists in the same order.
* `gettimeofday` is an explicit `now : Nat` parameter (seconds).
* The local `struct timeval t` of `ipmi_mc_add_to_sel` is read before
  `gettimeofday` is called on it; its indeterminate contents at that
  read are the explicit parameter `tUninit`.
* Handlers return the mutated state together with the response buffer
  contents and the value stored in `*rdata_len`.
-/

/-- ipmi_get_uint16: little-endian 16-bit read at byte offset `i`. -/
def getU16 (data : List Nat) (i : Nat) : Nat :=
  data.getD i 0 ||| (data.getD (i+1) 0 <<< 8)

/-- ipmi_set_uint16 as the two bytes it stores, little-endian. -/
def le16 (v : Nat) : List Nat :=
  [v &&& 0xff, (v >>> 8) &&& 0xff]

/-- ipmi_set_uint32 as the four bytes it stores, little-endian. -/
def le32 (v : Nat) : List Nat :=
  [v &&& 0xff, (v >>> 8) &&& 0xff, (v >>> 16) &&& 0xff, (v >>> 24) &&& 0xff]

/-- ipmi_set_uint16 on a signed C `int` value (two's complement bytes;
the C right shift of a negative int is arithmetic, i.e. floor). -/
def le16I (v : Int) : List Nat :=
  [(v % 256).toNat, ((v.fdiv 256) % 256).toNat]

/-- Write the bytes `bs` into buffer `buf` starting at index `i`
(the effect of consecutive C stores / memcpy into `rdata`). -/
def writeBytes (buf : List Nat) (i : Nat) : List Nat → List Nat
  | [] => buf
  | b :: rest => writeBytes (buf.set i b) (i+1) rest

/-- Storing `t.tv_sec + time_offset` into a `uint32_t` field. -/
def u32OfTime (now : Nat) (off : Int) : Nat :=
  (((now : Int) + off) % 4294967296).toNat

/- Completion codes (values fixed by the spec's error taxonomy; the C
code takes them from OpenIPMI/ipmi_msgbits.h). -/
def IPMI_INVALID_CMD_CC : Nat := 0xC1
def IPMI_REQUEST_DATA_LENGTH_INVALID_CC : Nat := 0xC7
def IPMI_INVALID_RESERVATION_CC : Nat := 0xC5
def IPMI_NOT_PRESENT_CC : Nat := 0xCB
def IPMI_INVALID_DATA_FIELD_CC : Nat := 0xCC
def IPMI_OUT_OF_SPACE_CC : Nat := 0xC4
def IPMI_UNKNOWN_ERR_CC : Nat := 0xFF
def IPMI_NOT_SUPPORTED_IN_PRESENT_STATE_CC : Nat := 0xD5
def IPMI_PARAMETER_OUT_OF_RANGE_CC : Nat := 0xC9
def IPMI_REQUESTED_DATA_LENGTH_EXCEEDED_CC : Nat := 0xCA

/- Device-support bits (serv.c). -/
def IPMI_DEVID_SEL_DEVICE : Nat := 4
def IPMI_DEVID_SDR_REPOSITORY_DEV : Nat := 2

/- SEL flag bits (serv.c). -/
def IPMI_SEL_SUPPORTS_DELETE : Nat := 8
def IPMI_SEL_SUPPORTS_RESERVE : Nat := 2
def IPMI_SEL_SUPPORTS_GET_ALLOC_INFO : Nat := 1

/-- sel_entry_t: one SEL record (16 data bytes) keyed by its record id. -/
structure SelEntry where
  record_id : Nat
  data : List Nat
  deriving Repr, DecidableEq

/-- sel_t: the System Event Log state owned by an MC. -/
structure Sel where
  entries : List SelEntry
  count : Nat
  max_count : Nat
  last_add_time : Nat
  last_erase_time : Nat
  flags : Nat
  reservation : Nat
  next_entry : Nat
  time_offset : Int
  deriving Repr, DecidableEq

/-- find_sel_event_by_recid (the `prev` pointer is recovered from the
list position where needed). -/
def find_sel_event_by_recid (entries : List SelEntry) (rid : Nat) : Option SelEntry :=
  entries.find? fun e => e.record_id == rid

/-- ipmi_mc_enable_sel: reset the SEL. -/
def ipmi_mc_enable_sel (max_entries : Nat) (flags : Nat) : Sel :=
  { entries := []
    count := 0
    max_count := max_entries
    last_add_time := 0
    last_erase_time := 0
    flags := flags &&& 0xb
    reservation := 0
    next_entry := 1
    time_offset := 0 }

/-- Error results of ipmi_mc_add_to_sel (ENOTSUP / EAGAIN in the C). -/
inductive SelErr where
  | enotsup
  | eagain
  deriving Repr, DecidableEq

/-- The record-id search loop of ipmi_mc_add_to_sel.  At loop entry the
code has already set `e->record_id = next_entry` and incremented
`next_entry` (so `ne = rid + 1 mod 2^16` throughout).  The guard tests
`next_entry == 0` (not `record_id == 0`) and collisions; the body
increments `record_id`, fails with EAGAIN when it returns to
`start_record_id`, and increments `next_entry`.  `fuel` only bounds the
recursion; the C loop revisits `start` after at most 2^16 increments,
so fuel 65536 is never exhausted. -/
def selAllocLoop (entries : List SelEntry) (start : Nat) :
    Nat → Nat → Nat → Option (Nat × Nat)
  | 0, _, _ => none
  | fuel+1, rid, ne =>
    if ne = 0 ∨ (find_sel_event_by_recid entries rid).isSome then
      let rid' := (rid + 1) % 65536
      if rid' = start then none
      else selAllocLoop entries start fuel rid' ((ne + 1) % 65536)
    else some (rid, ne)

/-- Record-id allocation of ipmi_mc_add_to_sel: returns the allocated
record id and the new `next_entry`, or `none` for the EAGAIN path. -/
def selAlloc (sel : Sel) : Option (Nat × Nat) :=
  selAllocLoop sel.entries sel.next_entry 65536 sel.next_entry
    ((sel.next_entry + 1) % 65536)

theorem selAllocLoop_succ (entries : List SelEntry) (start fuel rid ne : Nat) :
    selAllocLoop entries start (fuel+1) rid ne =
      if ne = 0 ∨ (find_sel_event_by_recid entries rid).isSome then
        let rid' := (rid + 1) % 65536
        if rid' = start then none
        else selAllocLoop entries start fuel rid' ((ne + 1) % 65536)
      else some (rid, ne) := rfl

/-- ipmi_mc_add_to_sel.  `event` is the 13-byte payload pointer the
caller passes.  For `record_type < 0xe0` the code stores the
record id, the type, the four bytes of `t.tv_sec` — read from the
stack-local `t` BEFORE `gettimeofday(&t, NULL)` runs (parameter
`tUninit`) — and bytes 4..12 of `event`; otherwise all 13 event
bytes follow the type.  `gettimeofday` is only called at the end,
for `last_add_time` (parameter `now`). -/
def ipmi_mc_add_to_sel (devSupport : Nat) (sel : Sel) (record_type : Nat)
    (event : List Nat) (tUninit now : Nat) : Except SelErr (Sel × Nat) :=
  if devSupport &&& IPMI_DEVID_SEL_DEVICE = 0 then .error .enotsup
  else if sel.max_count ≤ sel.count then .error .eagain
  else
    match selAlloc sel with
    | none => .error .eagain
    | some (rid, ne) =>
      let d : List Nat :=
        if record_type < 0xe0 then
          le16 rid ++ [record_type] ++ le32 tUninit ++ (event.drop 4).take 9
        else
          le16 rid ++ [record_type] ++ event.take 13
      let e : SelEntry := { record_id := rid, data := d }
      .ok ({ sel with
              entries := sel.entries ++ [e]
              count := sel.count + 1
              next_entry := ne
              last_add_time := u32OfTime now sel.time_offset }, rid)

/-- handle_invalid_cmd / the error-reply shape shared by every handler. -/
def errReply (rdata : List Nat) (cc : Nat) : List Nat × Nat :=
  (rdata.set 0 cc, 1)

/-- handle_get_sel_info.  Builds the 15-byte response (version 0x51,
count, free space `(max_count - count) * 16` as a signed int, add and
erase times, flags) and clears the overflow flag. -/
def handle_get_sel_info (devSupport : Nat) (sel : Sel) (rdata : List Nat) :
    Sel × List Nat × Nat :=
  if devSupport &&& IPMI_DEVID_SEL_DEVICE = 0 then
    (sel, errReply rdata IPMI_INVALID_CMD_CC)
  else
    let free : Int := ((sel.max_count : Int) - (sel.count : Int)) * 16
    let out := writeBytes rdata 0
      ([0, 0x51] ++ le16 sel.count ++ le16I free ++ le32 sel.last_add_time
        ++ le32 sel.last_erase_time ++ [sel.flags])
    ({ sel with flags := sel.flags &&& 0x7f }, out, 15)

/-- handle_add_sel_entry: for a system event (`data[2] < 0xe0`) the
payload pointer is `msg->data+6`, otherwise `msg->data+3`.  On success
the reply is the single completion byte (the C never stores the new
record id into `rdata`). -/
def handle_add_sel_entry (devSupport : Nat) (sel : Sel) (msg rdata : List Nat)
    (tUninit now : Nat) : Sel × List Nat × Nat :=
  if devSupport &&& IPMI_DEVID_SEL_DEVICE = 0 then
    (sel, errReply rdata IPMI_INVALID_CMD_CC)
  else if msg.length < 16 then
    (sel, errReply rdata IPMI_REQUEST_DATA_LENGTH_INVALID_CC)
  else
    let rv :=
      if msg.getD 2 0 < 0xe0 then
        ipmi_mc_add_to_sel devSupport sel (msg.getD 2 0) (msg.drop 6) tUninit now
      else
        ipmi_mc_add_to_sel devSupport sel (msg.getD 2 0) (msg.drop 3) tUninit now
    match rv with
    | .error .eagain => (sel, errReply rdata IPMI_OUT_OF_SPACE_CC)
    | .error _ => (sel, errReply rdata IPMI_UNKNOWN_ERR_CC)
    | .ok (sel', _) => (sel', errReply rdata 0)

/-- handle_delete_sel_entry.  Record id 0 selects the head, 0xffff the
tail, anything else an exact match.  The matched node is unlinked and
freed; `sel.count` is left untouched by the C code. -/
def handle_delete_sel_entry (devSupport : Nat) (sel : Sel) (msg rdata : List Nat) :
    Sel × List Nat × Nat :=
  if devSupport &&& IPMI_DEVID_SEL_DEVICE = 0 then
    (sel, errReply rdata IPMI_INVALID_CMD_CC)
  else if sel.flags &&& IPMI_SEL_SUPPORTS_DELETE = 0 then
    (sel, errReply rdata IPMI_INVALID_CMD_CC)
  else if msg.length < 4 then
    (sel, errReply rdata IPMI_REQUEST_DATA_LENGTH_INVALID_CC)
  else if sel.flags &&& IPMI_SEL_SUPPORTS_RESERVE ≠ 0 ∧ getU16 msg 0 ≠ 0 ∧
      getU16 msg 0 ≠ sel.reservation then
    (sel, errReply rdata IPMI_INVALID_RESERVATION_CC)
  else
    let rid := getU16 msg 2
    let target : Option SelEntry :=
      if rid = 0 then sel.entries.head?
      else if rid = 0xffff then sel.entries.getLast?
      else find_sel_event_by_recid sel.entries rid
    match target with
    | none => (sel, errReply rdata IPMI_NOT_PRESENT_CC)
    | some e =>
      let entries' :=
        if rid = 0 then sel.entries.tail
        else if rid = 0xffff then sel.entries.dropLast
        else sel.entries.eraseP fun x => x.record_id == rid
      ({ sel with entries := entries' },
       writeBytes rdata 0 ([0] ++ le16 e.record_id), 3)

/-- handle_clear_sel.  On op 0x00 the C walks the entry list freeing
every node, but stores neither `sel.entries = NULL` nor `sel.count = 0`:
the struct fields keep their old values (the list head is left dangling).
The model therefore leaves `entries` and `count` unchanged; only
`last_erase_time` is written. -/
def handle_clear_sel (devSupport : Nat) (sel : Sel) (msg rdata : List Nat)
    (now : Nat) : Sel × List Nat × Nat :=
  if devSupport &&& IPMI_DEVID_SEL_DEVICE = 0 then
    (sel, errReply rdata IPMI_INVALID_CMD_CC)
  else if msg.length < 6 then
    (sel, errReply rdata IPMI_REQUEST_DATA_LENGTH_INVALID_CC)
  else if sel.flags &&& IPMI_SEL_SUPPORTS_RESERVE ≠ 0 ∧ getU16 msg 0 ≠ 0 ∧
      getU16 msg 0 ≠ sel.reservation then
    (sel, errReply rdata IPMI_INVALID_RESERVATION_CC)
  else if ¬ (msg.getD 2 0 = 67 ∧ msg.getD 3 0 = 76 ∧ msg.getD 4 0 = 82) then
    (sel, errReply rdata IPMI_INVALID_DATA_FIELD_CC)
  else if msg.getD 5 0 ≠ 0 ∧ msg.getD 5 0 ≠ 0xaa then
    (sel, errReply rdata IPMI_INVALID_DATA_FIELD_CC)
  else
    ({ sel with last_erase_time := u32OfTime now sel.time_offset },
     (rdata.set 1 1).set 0 0, 2)

/- Concrete states and requests used by the SEL counterexample theorems. -/

/-- A SEL holding two records (ids 1 and 2), count 2, reservation 5. -/
def selTwo : Sel :=
  { entries := [{ record_id := 1, data := [1,0] ++ List.replicate 14 0 },
                { record_id := 2, data := [2,0] ++ List.replicate 14 0 }]
    count := 2
    max_count := 10
    last_add_time := 0
    last_erase_time := 0
    flags := 0xb
    reservation := 5
    next_entry := 3
    time_offset := 0 }

/-- A Clear SEL request: reservation 5, "CLR", op 0x00 (initiate erase). -/
def clrMsg : List Nat := [5, 0, 67, 76, 82, 0]

/-- C1.  A Clear SEL with op 0x00 on a two-entry SEL answers
[0x00, 0x01] and updates last_erase_time, but the handler never resets
`sel.count` (nor the entry-list head, which is left dangling in the C):
the count stays 2 and a subsequent Get SEL Info still reports count 2,
refuting "the SEL afterwards has count = 0 and a subsequent Get SEL
Info reports count = 0". -/
theorem C1_clear_sel_count_not_reset :
    (handle_clear_sel 4 selTwo clrMsg (List.replicate 16 0) 1000).2.2 = 2 ∧
    ((handle_clear_sel 4 selTwo clrMsg (List.replicate 16 0) 1000).2.1.take 2
      = [0, 1]) ∧
    (handle_clear_sel 4 selTwo clrMsg (List.replicate 16 0) 1000).1.last_erase_time
      = 1000 ∧
    (handle_clear_sel 4 selTwo clrMsg (List.replicate 16 0) 1000).1.count = 2 ∧
    ((handle_get_sel_info 4
        (handle_clear_sel 4 selTwo clrMsg (List.replicate 16 0) 1000).1
        (List.replicate 16 0)).2.1.take 4 = [0, 0x51, 2, 0]) := by
  decide

/-- A SEL holding one record (id 1), count 1. -/
def selOne : Sel :=
  { entries := [{ record_id := 1, data := [1,0] ++ List.replicate 14 0 }]
    count := 1
    max_count := 10
    last_add_time := 0
    last_erase_time := 0
    flags := 0xb
    reservation := 5
    next_entry := 2
    time_offset := 0 }

/-- C4.  A successful Delete SEL Entry (reservation 5, record id 0 =
head) on a one-entry SEL unlinks and frees the entry but never
decrements `sel.count`: afterwards the entry list is empty while the
count is still 1, so the invariant `count == length(entries)` is not
preserved by Delete SEL Entry. -/
theorem C4_delete_sel_count_not_decremented :
    ((handle_delete_sel_entry 4 selOne [5,0,0,0] (List.replicate 8 0)).2.1.take 3
      = [0, 1, 0]) ∧
    (handle_delete_sel_entry 4 selOne [5,0,0,0] (List.replicate 8 0)).1.entries
      = [] ∧
    (handle_delete_sel_entry 4 selOne [5,0,0,0] (List.replicate 8 0)).1.count = 1 ∧
    (handle_delete_sel_entry 4 selOne [5,0,0,0] (List.replicate 8 0)).1.count ≠
      ((handle_delete_sel_entry 4 selOne [5,0,0,0] (List.replicate 8 0)).1.entries).length := by
  decide

/-- An empty SEL with time_offset 7. -/
def selEmptyOff7 : Sel :=
  { entries := []
    count := 0
    max_count := 10
    last_add_time := 0
    last_erase_time := 0
    flags := 0xb
    reservation := 0
    next_entry := 1
    time_offset := 7 }

/-- An Add SEL Entry request whose record has type 2 (< 0xE0); request
bytes 10..18 are 20..28. -/
def addMsgSys : List Nat :=
  [0, 0, 2, 0, 0, 0, 10, 11, 12, 13, 20, 21, 22, 23, 24, 25, 26, 27, 28]

/-- C5.  Adding a system-event record (type < 0xE0) at wall-clock
second 1000 with time_offset 7 stores, at record bytes 3..6, the
indeterminate pre-gettimeofday stack value (modelled here as 99) with
no time_offset added — not `le32 (1000 + 7)` as the claim requires —
while `last_add_time` does get `now + time_offset`.  Bytes 7..15 are
copied from request bytes 10..18 as claimed. -/
theorem C5_add_sel_stamps_uninitialized_clock :
    (handle_add_sel_entry 4 selEmptyOff7 addMsgSys (List.replicate 4 0) 99 1000).1.entries
      = [{ record_id := 1,
           data := [1, 0, 2, 99, 0, 0, 0, 20, 21, 22, 23, 24, 25, 26, 27, 28] }] ∧
    [(99 : Nat), 0, 0, 0] ≠ le32 (1000 + 7) ∧
    (handle_add_sel_entry 4 selEmptyOff7 addMsgSys (List.replicate 4 0) 99 1000).1.last_add_time
      = 1007 := by
  decide

/-- An empty SEL with zero time_offset. -/
def selEmpty : Sel :=
  { entries := []
    count := 0
    max_count := 10
    last_add_time := 0
    last_erase_time := 0
    flags := 0xb
    reservation := 0
    next_entry := 1
    time_offset := 0 }

/-- A 16-byte OEM record (type 0xE5) used as an Add SEL Entry request. -/
def addMsgOem : List Nat :=
  [9, 9, 0xe5, 3, 4, 5, 6, 7, 8, 9, 10, 11, 12, 13, 14, 15]

/-- C8.  A successful Add SEL Entry appends the record under the newly
assigned record id 1, but the response is the single completion byte
[0x00] (`*rdata_len = 1`): the C never writes the new record id into
the reply, so the response does not carry the record id as claimed. -/
theorem C8_add_sel_response_lacks_record_id :
    (handle_add_sel_entry 4 selEmpty addMsgOem (List.replicate 8 0) 0 0).2.2 = 1 ∧
    ((handle_add_sel_entry 4 selEmpty addMsgOem (List.replicate 8 0) 0 0).1.entries.map
        SelEntry.record_id = [1]) ∧
    ((handle_add_sel_entry 4 selEmpty addMsgOem (List.replicate 8 0) 0 0).2.1.take 3
      = [0, 0, 0]) ∧
    ((handle_add_sel_entry 4 selEmpty addMsgOem (List.replicate 8 0) 0 0).2.1.take 3
      ≠ [0] ++ le16 1) := by
  decide

/- SDR flag bits and modal encoding (serv.c). -/
def IPMI_SDR_DELETE_SDR_SUPPORTED : Nat := 8
def IPMI_SDR_PARTIAL_ADD_SDR_SUPPORTED : Nat := 4
def IPMI_SDR_RESERVE_SDR_SUPPORTED : Nat := 2
def IPMI_SDR_GET_MODAL (v : Nat) : Nat := (v >>> 5) &&& 3
def IPMI_SDR_NON_MODAL_ONLY : Nat := 1

/-- sdr_t: one variable-length SDR record.  `length` is the full record
length (body length byte + 6); `data` holds `length` bytes whose first
two are the record id.  A freshly malloc'd record has indeterminate
bytes after the id; the model fills them with 0 (no theorem observes a
byte before the code writes it). -/
structure Sdr where
  record_id : Nat
  length : Nat
  data : List Nat
  deriving Repr, DecidableEq

/-- sdrs_t: an SDR repository. -/
structure Sdrs where
  reservation : Nat
  sdr_count : Nat
  last_add_time : Nat
  last_erase_time : Nat
  time_offset : Int
  flags : Nat
  next_entry : Nat
  sdrs : List Sdr
  deriving Repr, DecidableEq

/-- The partial-add working state carried by the MC next to its main
repository: `part_add_sdr`, `part_add_next` and `in_update_mode`. -/
structure McSdrState where
  main_sdrs : Sdrs
  part_add_sdr : Option Sdr
  part_add_next : Nat
  in_update_mode : Bool
  deriving Repr, DecidableEq

/-- find_sdr_by_recid. -/
def find_sdr_by_recid (sdrs : List Sdr) (rid : Nat) : Option Sdr :=
  sdrs.find? fun e => e.record_id == rid

/-- The record-id search loop of new_sdr_entry: while `next_entry` is
in use, increment it, map 0xffff to 1, and fail on returning to the
start.  (Unlike the SEL allocator nothing here skips 0, and a free
0xffff at loop entry is handed out as-is.)  As before `fuel` only
bounds the recursion. -/
def sdrAllocLoop (sdrs : List Sdr) (start : Nat) : Nat → Nat → Option Nat
  | 0, _ => none
  | fuel+1, ne =>
    if (find_sdr_by_recid sdrs ne).isSome then
      let ne' := (ne + 1) % 65536
      let ne'' := if ne' = 0xffff then 1 else ne'
      if ne'' = start then none
      else sdrAllocLoop sdrs start fuel ne''
    else some ne

theorem sdrAllocLoop_succ (sdrs : List Sdr) (start fuel ne : Nat) :
    sdrAllocLoop sdrs start (fuel+1) ne =
      if (find_sdr_by_recid sdrs ne).isSome then
        let ne' := (ne + 1) % 65536
        let ne'' := if ne' = 0xffff then 1 else ne'
        if ne'' = start then none
        else sdrAllocLoop sdrs start fuel ne''
      else some ne := rfl

/-- new_sdr_entry: allocate a record id, build a record of
`length + 6` bytes whose first two bytes are the id, and advance
`next_entry`.  Returns the new record and the updated repository. -/
def new_sdr_entry (st : Sdrs) (length : Nat) : Option (Sdr × Sdrs) :=
  match sdrAllocLoop st.sdrs st.next_entry 131072 st.next_entry with
  | none => none
  | some rid =>
    some ({ record_id := rid
            length := length + 6
            data := writeBytes (List.replicate (length + 6) 0) 0 (le16 rid) },
          { st with next_entry := (rid + 1) % 65536 })

/-- add_sdr_entry: append at the tail, stamp `last_add_time` from the
wall clock plus the main repository's time_offset, bump `sdr_count`. -/
def add_sdr_entry (st : Sdrs) (entry : Sdr) (now : Nat) : Sdrs :=
  { st with
      sdrs := st.sdrs ++ [entry]
      last_add_time := u32OfTime now st.time_offset
      sdr_count := st.sdr_count + 1 }

/-- handle_add_sdr (single-shot).  Validates modal state and
`data_len == data[5] + 6`, allocates a record, appends it, then copies
request bytes 2.. over record bytes 2.. (the copy happens after the
append in the C; the node is shared, so building the record first is
state-equivalent). -/
def handle_add_sdr (devSupport : Nat) (st : McSdrState) (msg rdata : List Nat)
    (now : Nat) : McSdrState × List Nat × Nat :=
  if devSupport &&& IPMI_DEVID_SDR_REPOSITORY_DEV = 0 then
    (st, errReply rdata IPMI_INVALID_CMD_CC)
  else if IPMI_SDR_GET_MODAL st.main_sdrs.flags = IPMI_SDR_NON_MODAL_ONLY ∧
      ¬ st.in_update_mode then
    (st, errReply rdata IPMI_NOT_SUPPORTED_IN_PRESENT_STATE_CC)
  else if msg.length < 6 then
    (st, errReply rdata IPMI_REQUEST_DATA_LENGTH_INVALID_CC)
  else if msg.length ≠ msg.getD 5 0 + 6 then
    (st, errReply rdata 0x80)
  else
    match new_sdr_entry st.main_sdrs (msg.getD 5 0) with
    | none => (st, errReply rdata IPMI_OUT_OF_SPACE_CC)
    | some (entry, sdrs') =>
      let entry' := { entry with
        data := writeBytes entry.data 2 ((msg.drop 2).take (entry.length - 2)) }
      ({ st with main_sdrs := add_sdr_entry sdrs' entry' now },
       writeBytes rdata 0 ([0] ++ le16 entry.record_id), 3)

/-- handle_partial_add_sdr.  Faithful to the source, including its two
quirks: the candidate record id is read with
`ipmi_get_uint16(rdata+2)` — i.e. from the caller's RESPONSE buffer,
not from request bytes 2..3 — and a successful begin segment sets the
`part_add_next` watermark to `data_len - 8`, although the segment
consumed record bytes 0 .. data_len-7 (the body after the 6 request
header bytes, with record bytes 0..1 replaced by the id), so the
watermark lands two bytes short of the bytes already received.
Result `none` marks the paths where the C dereferences or frees a NULL
`part_add_sdr` (or memcpy's with an underflowed length); no theorem
relies on them. -/
def handle_partial_add_sdr (devSupport : Nat) (st : McSdrState)
    (msg rdata : List Nat) (now : Nat) :
    Option (McSdrState × List Nat × Nat) :=
  if devSupport &&& IPMI_DEVID_SDR_REPOSITORY_DEV = 0 then
    some (st, errReply rdata IPMI_INVALID_CMD_CC)
  else if st.main_sdrs.flags &&& IPMI_SDR_PARTIAL_ADD_SDR_SUPPORTED = 0 then
    some (st, errReply rdata IPMI_INVALID_CMD_CC)
  else if st.main_sdrs.flags &&& IPMI_SDR_RESERVE_SDR_SUPPORTED ≠ 0 ∧
      getU16 msg 0 ≠ 0 ∧ getU16 msg 0 ≠ st.main_sdrs.reservation then
    some (st, errReply rdata IPMI_INVALID_RESERVATION_CC)
  else if IPMI_SDR_GET_MODAL st.main_sdrs.flags = IPMI_SDR_NON_MODAL_ONLY ∧
      ¬ st.in_update_mode then
    some (st, errReply rdata IPMI_NOT_SUPPORTED_IN_PRESENT_STATE_CC)
  else
    let offset := msg.getD 4 0
    let record_id := getU16 rdata 2
    let afterBody : McSdrState → Option (McSdrState × List Nat × Nat) :=
      fun st' =>
        if msg.getD 5 0 &&& 0xf = 1 then
          match st'.part_add_sdr with
          | none => none
          | some w =>
            if st'.part_add_next ≠ w.length then
              some ({ st' with part_add_sdr := none }, errReply rdata 0x80)
            else
              some ({ st' with
                        main_sdrs := add_sdr_entry st'.main_sdrs w now
                        part_add_sdr := none },
                    (rdata.set 0 0, 1))
        else some (st', (rdata.set 0 0, 1))
    if record_id = 0 then
      if msg.length < 12 then
        some (st, errReply rdata IPMI_REQUEST_DATA_LENGTH_INVALID_CC)
      else if offset ≠ 0 then
        some (st, errReply rdata IPMI_INVALID_DATA_FIELD_CC)
      else if msg.getD 11 0 + 12 < msg.length then
        some (st, errReply rdata 0x80)
      else if st.part_add_sdr.isSome then
        some ({ st with part_add_sdr := none }, errReply rdata IPMI_UNKNOWN_ERR_CC)
      else
        match new_sdr_entry st.main_sdrs (msg.getD 11 0) with
        | none => none
        | some (entry, sdrs') =>
          let entry' := { entry with
            data := writeBytes entry.data 2 (msg.drop 8) }
          afterBody { st with
                        main_sdrs := sdrs'
                        part_add_sdr := some entry'
                        part_add_next := msg.length - 8 }
    else
      if st.part_add_next = 0 then
        some (st, errReply rdata IPMI_UNKNOWN_ERR_CC)
      else
        match st.part_add_sdr with
        | none => none
        | some w =>
          if msg.length < 6 then none
          else if offset ≠ st.part_add_next then
            some ({ st with part_add_sdr := none },
                  errReply rdata IPMI_INVALID_DATA_FIELD_CC)
          else if w.length < offset + (msg.length - 6) then
            some ({ st with part_add_sdr := none }, errReply rdata 0x80)
          else
            let w' := { w with data := writeBytes w.data offset (msg.drop 6) }
            afterBody { st with
                          part_add_sdr := some w'
                          part_add_next := st.part_add_next + (msg.length - 6) }

/-- handle_delete_sdr.  Like the partial add, the source reads the
record id with `ipmi_get_uint16(rdata+2)` (response buffer).  A
successful delete does decrement `sdr_count` and stamps
`last_erase_time`. -/
def handle_delete_sdr (devSupport : Nat) (st : McSdrState)
    (msg rdata : List Nat) (now : Nat) : McSdrState × List Nat × Nat :=
  if devSupport &&& IPMI_DEVID_SDR_REPOSITORY_DEV = 0 then
    (st, errReply rdata IPMI_INVALID_CMD_CC)
  else if msg.length < 4 then
    (st, errReply rdata IPMI_REQUEST_DATA_LENGTH_INVALID_CC)
  else if st.main_sdrs.flags &&& IPMI_SDR_RESERVE_SDR_SUPPORTED ≠ 0 ∧
      getU16 msg 0 ≠ 0 ∧ getU16 msg 0 ≠ st.main_sdrs.reservation then
    (st, errReply rdata IPMI_INVALID_RESERVATION_CC)
  else
    let rid := getU16 rdata 2
    let target : Option Sdr :=
      if rid = 0 then st.main_sdrs.sdrs.head?
      else if rid = 0xffff then st.main_sdrs.sdrs.getLast?
      else find_sdr_by_recid st.main_sdrs.sdrs rid
    match target with
    | none => (st, errReply rdata IPMI_NOT_PRESENT_CC)
    | some e =>
      let sdrs' :=
        if rid = 0 then st.main_sdrs.sdrs.tail
        else if rid = 0xffff then st.main_sdrs.sdrs.dropLast
        else st.main_sdrs.sdrs.eraseP fun x => x.record_id == rid
      ({ st with main_sdrs := { st.main_sdrs with
                                  sdrs := sdrs'
                                  last_erase_time := u32OfTime now st.main_sdrs.time_offset
                                  sdr_count := st.main_sdrs.sdr_count - 1 } },
       writeBytes rdata 0 ([0] ++ le16 e.record_id), 3)

/-- handle_clear_sdr_repository.  As with the SEL clear, op 0x00 frees
every node but stores neither `sdrs->sdrs = NULL` nor a new
`sdr_count`; only `last_erase_time` is written. -/
def handle_clear_sdr_repository (devSupport : Nat) (st : McSdrState)
    (msg rdata : List Nat) (now : Nat) : McSdrState × List Nat × Nat :=
  if devSupport &&& IPMI_DEVID_SDR_REPOSITORY_DEV = 0 then
    (st, errReply rdata IPMI_INVALID_CMD_CC)
  else if msg.length < 6 then
    (st, errReply rdata IPMI_REQUEST_DATA_LENGTH_INVALID_CC)
  else if st.main_sdrs.flags &&& IPMI_SDR_RESERVE_SDR_SUPPORTED ≠ 0 ∧
      getU16 msg 0 ≠ 0 ∧ getU16 msg 0 ≠ st.main_sdrs.reservation then
    (st, errReply rdata IPMI_INVALID_RESERVATION_CC)
  else if ¬ (msg.getD 2 0 = 67 ∧ msg.getD 3 0 = 76 ∧ msg.getD 4 0 = 82) then
    (st, errReply rdata IPMI_INVALID_DATA_FIELD_CC)
  else if msg.getD 5 0 ≠ 0 ∧ msg.getD 5 0 ≠ 0xaa then
    (st, errReply rdata IPMI_INVALID_DATA_FIELD_CC)
  else
    ({ st with main_sdrs := { st.main_sdrs with
                                last_erase_time := u32OfTime now st.main_sdrs.time_offset } },
     (rdata.set 1 1).set 0 0, 2)

/-- C2.  Every reservation-protected mutation — SEL delete and clear,
SDR delete, clear and partial add — when the repository supports
reservations and the request carries a nonzero reservation different
from the current one, answers with the single byte 0xC5 and leaves the
repository state (including the partial-add working record) exactly as
it was.  The hypotheses are the support bits and minimum request length
each handler checks before the reservation. -/
theorem C2_wrong_reservation_rejected_unchanged
    (devSupport : Nat) (sel : Sel) (st : McSdrState) (msg rdata : List Nat)
    (now : Nat)
    (hdevSel : devSupport &&& IPMI_DEVID_SEL_DEVICE ≠ 0)
    (hdevSdr : devSupport &&& IPMI_DEVID_SDR_REPOSITORY_DEV ≠ 0)
    (hselDel : sel.flags &&& IPMI_SEL_SUPPORTS_DELETE ≠ 0)
    (hselRes : sel.flags &&& IPMI_SEL_SUPPORTS_RESERVE ≠ 0)
    (hsdrPart : st.main_sdrs.flags &&& IPMI_SDR_PARTIAL_ADD_SDR_SUPPORTED ≠ 0)
    (hsdrRes : st.main_sdrs.flags &&& IPMI_SDR_RESERVE_SDR_SUPPORTED ≠ 0)
    (hlen : 6 ≤ msg.length)
    (hr0 : getU16 msg 0 ≠ 0)
    (hrSel : getU16 msg 0 ≠ sel.reservation)
    (hrSdr : getU16 msg 0 ≠ st.main_sdrs.reservation) :
    handle_delete_sel_entry devSupport sel msg rdata
        = (sel, rdata.set 0 IPMI_INVALID_RESERVATION_CC, 1)
  ∧ handle_clear_sel devSupport sel msg rdata now
        = (sel, rdata.set 0 IPMI_INVALID_RESERVATION_CC, 1)
  ∧ handle_delete_sdr devSupport st msg rdata now
        = (st, rdata.set 0 IPMI_INVALID_RESERVATION_CC, 1)
  ∧ handle_clear_sdr_repository devSupport st msg rdata now
        = (st, rdata.set 0 IPMI_INVALID_RESERVATION_CC, 1)
  ∧ handle_partial_add_sdr devSupport st msg rdata now
        = some (st, rdata.set 0 IPMI_INVALID_RESERVATION_CC, 1) := by
  refine ⟨?_, ?_, ?_, ?_, ?_⟩
  · unfold handle_delete_sel_entry
    rw [if_neg hdevSel, if_neg hselDel, if_neg (by omega),
        if_pos ⟨hselRes, hr0, hrSel⟩]
    rfl
  · unfold handle_clear_sel
    rw [if_neg hdevSel, if_neg (by omega), if_pos ⟨hselRes, hr0, hrSel⟩]
    rfl
  · unfold handle_delete_sdr
    rw [if_neg hdevSdr, if_neg (by omega), if_pos ⟨hsdrRes, hr0, hrSdr⟩]
    rfl
  · unfold handle_clear_sdr_repository
    rw [if_neg hdevSdr, if_neg (by omega), if_pos ⟨hsdrRes, hr0, hrSdr⟩]
    rfl
  · unfold handle_partial_add_sdr
    rw [if_neg hdevSdr, if_neg hsdrPart, if_pos ⟨hsdrRes, hr0, hrSdr⟩]
    rfl

/-- An SDR repository state with reservation 9, reserve + partial-add
support, one live record, and a partial add in progress. -/
def stC2 : McSdrState :=
  { main_sdrs := { reservation := 9
                   sdr_count := 1
                   last_add_time := 3
                   last_erase_time := 4
                   time_offset := 0
                   flags := 6
                   next_entry := 2
                   sdrs := [{ record_id := 1, length := 8,
                              data := [1, 0, 81, 1, 170, 2, 7, 8] }] }
    part_add_sdr := some { record_id := 2, length := 7,
                           data := [2, 0, 9, 9, 9, 9, 9] }
    part_add_next := 5
    in_update_mode := false }

/-- Witness for C2: the SEL `selTwo` (reservation 5, flags 0xb) and the
repository `stC2` (reservation 9) reject a request carrying
reservation 3, all five handlers answering [0xC5] with no state
change. -/
theorem C2_wrong_reservation_witness :
    getU16 [3, 0, 0, 0, 0, 0] 0 ≠ 0 ∧
    (handle_delete_sel_entry 6 selTwo [3, 0, 0, 0, 0, 0] (List.replicate 8 0)
        = (selTwo, (List.replicate 8 0).set 0 IPMI_INVALID_RESERVATION_CC, 1)
      ∧ handle_clear_sel 6 selTwo [3, 0, 0, 0, 0, 0] (List.replicate 8 0) 77
        = (selTwo, (List.replicate 8 0).set 0 IPMI_INVALID_RESERVATION_CC, 1)
      ∧ handle_delete_sdr 6 stC2 [3, 0, 0, 0, 0, 0] (List.replicate 8 0) 77
        = (stC2, (List.replicate 8 0).set 0 IPMI_INVALID_RESERVATION_CC, 1)
      ∧ handle_clear_sdr_repository 6 stC2 [3, 0, 0, 0, 0, 0]
          (List.replicate 8 0) 77
        = (stC2, (List.replicate 8 0).set 0 IPMI_INVALID_RESERVATION_CC, 1)
      ∧ handle_partial_add_sdr 6 stC2 [3, 0, 0, 0, 0, 0]
          (List.replicate 8 0) 77
        = some (stC2, (List.replicate 8 0).set 0 IPMI_INVALID_RESERVATION_CC, 1)) :=
  ⟨by decide,
   C2_wrong_reservation_rejected_unchanged 6 selTwo stC2 [3, 0, 0, 0, 0, 0]
     (List.replicate 8 0) 77 (by decide) (by decide) (by decide) (by decide)
     (by decide) (by decide) (by decide) (by decide) (by decide) (by decide)⟩

/-- An empty SDR repository with partial-add support, no reservation in
force, no partial add in progress. -/
def stSdr0 : McSdrState :=
  { main_sdrs := { reservation := 0
                   sdr_count := 0
                   last_add_time := 0
                   last_erase_time := 0
                   time_offset := 0
                   flags := 4
                   next_entry := 1
                   sdrs := [] }
    part_add_sdr := none
    part_add_next := 0
    in_update_mode := false }

/-- An 8-byte SDR record body (length byte, record byte 5, is 2). -/
def recR : List Nat := [0x34, 0x12, 0x51, 0x01, 0xAA, 0x02, 7, 8]

/-- The begin segment of a partial add of `recR`: reservation 0,
record id 0, offset 0, progress 0, record bytes 0..5. -/
def beginSeg : List Nat := [0, 0, 0, 0, 0, 0] ++ recR.take 6

/-- The tiling continuation: record id 1 (the id the begin allocated),
offset 6 — exactly the number of record bytes already transmitted —
progress bits 1, record bytes 6..7. -/
def contSeg : List Nat := [0, 0, 1, 0, 6, 1, 7, 8]

/-- A response buffer whose stale bytes 2..3 hold the record id 1, so
that the source's `ipmi_get_uint16(rdata+2)` read routes the
continuation into the continuation branch. -/
def rdataId1 : List Nat := [0, 0, 1, 0, 0, 0, 0, 0]

/-- The state after the begin segment: record id 1 allocated, record
bytes 2..5 received into the working record, and the watermark
`part_add_next` left at `data_len - 8 = 4` although six record bytes
(0..5, the first two rewritten to the id) have been consumed. -/
def stAfterBegin : McSdrState :=
  { main_sdrs := { reservation := 0
                   sdr_count := 0
                   last_add_time := 0
                   last_erase_time := 0
                   time_offset := 0
                   flags := 4
                   next_entry := 2
                   sdrs := [] }
    part_add_sdr := some { record_id := 1, length := 8,
                           data := [1, 0, 0x51, 0x01, 0xAA, 0x02, 0, 0] }
    part_add_next := 4
    in_update_mode := false }

/-- C6.  A single-shot Add SDR of `recR` commits
[1, 0, 0x51, 0x01, 0xAA, 0x02, 7, 8].  The partial-add sequence that
transmits the same total bytes in valid segments — begin with record
bytes 0..5, continuation at offset 6 (the number of record bytes
already transmitted) with bytes 6..7 and progress bits 1 — does NOT
commit that record: the begin leaves the watermark at
`data_len - 8 = 4` instead of 6, so the continuation is rejected with
0xCC, the working record is discarded, and the repository stays
empty. -/
theorem C6_partial_add_not_equal_single_shot :
    (handle_add_sdr 2 stSdr0 recR (List.replicate 8 0) 500).1.main_sdrs.sdrs
      = [{ record_id := 1, length := 8,
           data := [1, 0, 0x51, 0x01, 0xAA, 0x02, 7, 8] }] ∧
    handle_partial_add_sdr 2 stSdr0 beginSeg (List.replicate 8 0) 500
      = some (stAfterBegin, List.replicate 8 0, 1) ∧
    handle_partial_add_sdr 2 stAfterBegin contSeg rdataId1 500
      = some ({ stAfterBegin with part_add_sdr := none },
              rdataId1.set 0 IPMI_INVALID_DATA_FIELD_CC, 1) ∧
    ({ stAfterBegin with part_add_sdr := none } : McSdrState).main_sdrs.sdrs
      = [] := by
  decide

/-- A well-formed begin request for `recR`: record id 0 at request
bytes 2..3, offset 0, progress 1, full record body
(data_len = body length byte + 12 = 14). -/
def beginFull : List Nat := [0, 0, 0, 0, 0, 1] ++ recR

/-- A response buffer whose stale bytes 2..3 hold 5. -/
def rdataStale5 : List Nat := [0, 0, 5, 0, 0, 0, 0, 0]

/-- C7.  The candidate record id is NOT decoded from request bytes
2..3: a begin request carrying record id 0 in its bytes 2..3 (offset 0,
correct length, no partial add in progress) is routed by
`ipmi_get_uint16(rdata+2)` on the stale response-buffer bytes [5, 0]
into the continuation branch and rejected with 0xFF, no working record
being started — whereas with a zeroed response buffer the very same
request would be accepted as a begin (second conjunct: it then answers
0x80, the watermark `data_len - 8` never matching the record length,
rather than committing — but a working state IS entered on the non-final
variant, third conjunct). -/
theorem C7_record_id_read_from_response_buffer :
    handle_partial_add_sdr 2 stSdr0 beginFull rdataStale5 500
      = some (stSdr0, rdataStale5.set 0 IPMI_UNKNOWN_ERR_CC, 1) ∧
    getU16 beginFull 2 = 0 ∧
    handle_partial_add_sdr 2 stSdr0 beginSeg (List.replicate 8 0) 500
      = some (stAfterBegin, List.replicate 8 0, 1) ∧
    stAfterBegin.part_add_sdr ≠ none := by
  decide

/-- One Add SEL Entry (via ipmi_mc_add_to_sel, record type 0xC0)
immediately followed by a Delete SEL Entry of the head record: the
repeated client interaction that drives `next_entry` upward while the
log stays empty. -/
def stepAD (sel : Sel) : Sel :=
  match ipmi_mc_add_to_sel 4 sel 0xc0 (List.replicate 13 0) 0 0 with
  | .ok p => (handle_delete_sel_entry 4 p.1 [0, 0, 0, 0] (List.replicate 4 0)).1
  | .error _ => sel

/-- The SEL state after `k` add/delete rounds from
`ipmi_mc_enable_sel 100000 8`: empty log, `next_entry = k + 1` (and
`count = k`, because Delete SEL Entry never decrements the count). -/
def selReach (k : Nat) : Sel :=
  { entries := []
    count := k
    max_count := 100000
    last_add_time := 0
    last_erase_time := 0
    flags := 8
    reservation := 0
    next_entry := k + 1
    time_offset := 0 }

theorem stepAD_reach (k : Nat) (hk : k ≤ 65533) :
    stepAD (selReach k) = selReach (k+1) := by
  have h2 : (k + 1 + 1) % 65536 = k + 2 := Nat.mod_eq_of_lt (by omega)
  have hc : ¬ (100000 ≤ k) := by omega
  unfold stepAD ipmi_mc_add_to_sel selAlloc
  rw [show (65536:Nat) = 65535+1 from rfl, selAllocLoop_succ]
  simp [selReach, find_sel_event_by_recid, handle_delete_sel_entry, getU16,
    u32OfTime, errReply, hc, h2, IPMI_DEVID_SEL_DEVICE, IPMI_SEL_SUPPORTS_DELETE,
    IPMI_SEL_SUPPORTS_RESERVE]

theorem stepAD_iterate (k : Nat) (hk : k ≤ 65534) :
    stepAD^[k] (ipmi_mc_enable_sel 100000 8) = selReach k := by
  induction k with
  | zero => rfl
  | succ n ih =>
    rw [Function.iterate_succ_apply', ih (by omega), stepAD_reach n (by omega)]

/-- C3.  The state `selReach 65534` (empty SEL, `next_entry = 0xFFFF`)
is reachable by 65534 add/delete rounds from an enabled SEL; the next
add then hands out record id 0: the allocator takes
`record_id = next_entry = 0xFFFF`, wraps `next_entry` to 0, and the
loop guard `next_entry == 0` forces one increment that leaves
`record_id = 0`, which no later check rejects.  The stored record's
first two bytes are [0, 0]. -/
theorem C3_sel_alloc_assigns_record_id_zero :
    stepAD^[65534] (ipmi_mc_enable_sel 100000 8) = selReach 65534 ∧
    (selReach 65534).next_entry = 0xffff ∧
    (ipmi_mc_add_to_sel 4 (selReach 65534) 0xc0 (List.replicate 13 0) 0 0
      = Except.ok
          ({ entries := [{ record_id := 0,
                           data := [0, 0, 0xc0, 0, 0, 0, 0, 0, 0, 0, 0, 0, 0, 0, 0, 0] }]
             count := 65535
             max_count := 100000
             last_add_time := 0
             last_erase_time := 0
             flags := 8
             reservation := 0
             next_entry := 1
             time_offset := 0 }, 0)) :=
  ⟨stepAD_iterate 65534 (by omega), by decide, by rfl⟩

/-- Sensor event-support kinds (the four IPMI_EVENT_SUPPORT_* constants;
the handlers only ever compare them for equality). -/
inductive EventSupport where
  | per_state
  | entire_sensor
  | global_enable
  | no_events
  deriving Repr, DecidableEq

/-- sensor_t.  The 0/1 flags kept in `unsigned char` arrays stay `Nat`
(the C tests them with `!x` / assigns 0 or 1); the six thresholds and
the six `threshold_supported` flags are lists indexed 0..5, the
15 event-status and enable slots lists indexed 0..14. -/
structure Sensor where
  num : Nat
  lun : Nat
  sensor_type : Nat
  event_reading_code : Nat
  value : Nat
  events_enabled : Nat
  scanning_enabled : Nat
  hysteresis_support : Nat
  positive_hysteresis : Nat
  negative_hysteresis : Nat
  threshold_support : Nat
  threshold_supported : List Nat
  thresholds : List Nat
  event_support : EventSupport
  event_enabled_assert : List Nat
  event_enabled_deassert : List Nat
  event_status : List Nat
  deriving Repr, DecidableEq

/-- Bit `i` of `bits_to_set` in check_thresholds: for the lower
thresholds (i < 3) the sensor value is at most the threshold, for the
upper ones (3 ≤ i < 6) at least the threshold; only when slot `i` is
supported. -/
def threshSetBit (s : Sensor) (i : Nat) : Bool :=
  if s.threshold_supported.getD i 0 = 0 then false
  else if i < 3 then decide (s.value ≤ s.thresholds.getD i 0)
  else decide (s.thresholds.getD i 0 ≤ s.value)

/-- Bit `i` of `bits_to_clear`: the else-if branch of the same loops,
so it also requires the set condition to fail.  The lower comparison
`value - negative_hysteresis > threshold` is C int arithmetic and may
go negative, hence the Int cast. -/
def threshClearBit (s : Sensor) (i : Nat) : Bool :=
  if s.threshold_supported.getD i 0 = 0 then false
  else if i < 3 then
    decide (¬ s.value ≤ s.thresholds.getD i 0 ∧
      (s.thresholds.getD i 0 : Int) < (s.value : Int) - (s.negative_hysteresis : Int))
  else
    decide (¬ s.thresholds.getD i 0 ≤ s.value ∧
      s.value + s.positive_hysteresis < s.thresholds.getD i 0)

/-- The per-slot status update of the two transition loops of
check_thresholds: set when the set bit is on and the status byte was
zero, clear when the clear bit is on and the status byte was nonzero,
otherwise unchanged. -/
def threshNewStatus (s : Sensor) (i : Nat) : Nat :=
  if threshSetBit s i = true ∧ s.event_status.getD i 0 = 0 then 1
  else if threshClearBit s i = true ∧ s.event_status.getD i 0 ≠ 0 then 0
  else s.event_status.getD i 0

/-- One do_event invocation made by check_thresholds: direction,
offset byte (0x50 | i*2 for lower, 0x50 | (i*2+1) for upper), the
current value and the threshold.  (do_event itself then drops the
event unless the MC has an event receiver, the sensor has
events_enabled and the caller asked for event generation.) -/
structure ThreshEvent where
  assertion : Bool
  offsetByte : Nat
  byte2 : Nat
  byte3 : Nat
  deriving Repr, DecidableEq

/-- The do_event calls check_thresholds makes, in loop order. -/
def threshEvents (s : Sensor) : List ThreshEvent :=
  (List.range 6).filterMap fun i =>
    let off := if i < 3 then 0x50 ||| (i*2) else 0x50 ||| (i*2+1)
    if threshSetBit s i = true ∧ s.event_status.getD i 0 = 0 then
      if s.event_enabled_assert.getD (if i < 3 then i*2 else i*2+1) 0 ≠ 0 then
        some { assertion := true, offsetByte := off, byte2 := s.value,
               byte3 := s.thresholds.getD i 0 }
      else none
    else if threshClearBit s i = true ∧ s.event_status.getD i 0 ≠ 0 then
      if s.event_enabled_deassert.getD (if i < 3 then i*2 else i*2+1) 0 ≠ 0 then
        some { assertion := false, offsetByte := off, byte2 := s.value,
               byte3 := s.thresholds.getD i 0 }
      else none
    else none

/-- check_thresholds: slots 0..5 of event_status are rewritten by
`threshNewStatus` (the bits are computed from the pre-call state; each
slot is written at most once, so per-slot evaluation over the entry
state matches the C's sequential loops), slots 6..14 are untouched. -/
def check_thresholds (s : Sensor) : Sensor × List ThreshEvent :=
  ({ s with event_status :=
      (List.range 15).map fun i =>
        if i < 6 then threshNewStatus s i else s.event_status.getD i 0 },
   threshEvents s)

/-- ipmi_mc_sensor_set_value: store the value, re-run threshold
checking. -/
def ipmi_mc_sensor_set_value (s : Sensor) (value : Nat) :
    Sensor × List ThreshEvent :=
  check_thresholds { s with value := value }

theorem getD_map_range (f : Nat → Nat) (n i : Nat) (h : i < n) :
    ((List.range n).map f).getD i 0 = f i := by
  rw [List.getD_eq_getElem?_getD, List.getElem?_map, List.getElem?_range h]
  rfl

/-- After a set-value, status slot `i < 6` carries the update computed
by `threshNewStatus` over the sensor with the new value. -/
theorem statusAfter (s : Sensor) (v : Nat) (i : Nat) (hi : i < 6) :
    ((ipmi_mc_sensor_set_value s v).1.event_status).getD i 0
      = threshNewStatus { s with value := v } i := by
  unfold ipmi_mc_sensor_set_value check_thresholds
  simp only
  rw [getD_map_range _ 15 i (by omega), if_pos hi]

/-- With both hysteresis values zero the else-if clear condition
becomes the exact complement of the set condition, so a supported
slot's new status is determined by the value/threshold comparison
alone. -/
theorem threshNewStatus_zero_hyst (s : Sensor) (i : Nat)
    (hp : s.positive_hysteresis = 0) (hn : s.negative_hysteresis = 0) :
    threshNewStatus s i =
      if s.threshold_supported.getD i 0 = 0 then s.event_status.getD i 0
      else if (if i < 3 then s.value ≤ s.thresholds.getD i 0
               else s.thresholds.getD i 0 ≤ s.value) then
        (if s.event_status.getD i 0 = 0 then 1 else s.event_status.getD i 0)
      else 0 := by
  unfold threshNewStatus threshSetBit threshClearBit
  simp only [List.getD_eq_getElem?_getD, decide_eq_true_eq, hp, hn]
  by_cases hs : s.threshold_supported[i]?.getD 0 = 0
  · simp [hs]
  · by_cases h3 : i < 3
    · by_cases hv : s.value ≤ s.thresholds[i]?.getD 0
      · simp [hs, h3, hv]
      · have hlt : (s.thresholds[i]?.getD 0 : Int) <
            (s.value : Int) - ((0 : Nat) : Int) := by push_cast; omega
        by_cases hst : s.event_status[i]?.getD 0 = 0 <;>
          simp [hs, h3, hv, hlt, hst]
    · by_cases hv : s.thresholds[i]?.getD 0 ≤ s.value
      · simp [hs, h3, hv]
      · have hlt : s.value + 0 < s.thresholds[i]?.getD 0 := by omega
        by_cases hst : s.event_status[i]?.getD 0 = 0 <;>
          simp [hs, h3, hv, hlt, hst]

/-- Monotonicity of the per-slot status update between two runs over
the same thresholds and supported bits, zero hysteresis, and the
second value larger, where the second run starts from the status the
first run produced. -/
theorem threshNewStatus_mono (a b : Sensor) (i : Nat)
    (hth : b.thresholds = a.thresholds)
    (hsup : b.threshold_supported = a.threshold_supported)
    (hpa : a.positive_hysteresis = 0) (hna : a.negative_hysteresis = 0)
    (hpb : b.positive_hysteresis = 0) (hnb : b.negative_hysteresis = 0)
    (hv : a.value < b.value)
    (hst : b.event_status.getD i 0 = threshNewStatus a i) :
    (3 ≤ i → threshNewStatus a i = 1 → threshNewStatus b i = 1) ∧
    (i < 3 → threshNewStatus a i = 0 → threshNewStatus b i = 0) := by
  rw [threshNewStatus_zero_hyst a i hpa hna] at hst
  rw [threshNewStatus_zero_hyst a i hpa hna, threshNewStatus_zero_hyst b i hpb hnb,
    hth, hsup, hst]
  split_ifs <;> simp_all <;> omega

/-- C9.  Threshold evaluation is monotone in the value for fixed
thresholds, fixed supported-threshold bits and zero hysteresis: after
setting value `v1` and then the larger value `v2`
(via ipmi_mc_sensor_set_value, which re-runs check_thresholds), an
upper-threshold status bit (3 ≤ i < 6) that was 1 after the first run
is still 1 after the second, and a lower-threshold status bit (i < 3)
that was 0 after the first run is still 0 after the second. -/
theorem C9_threshold_monotone (s : Sensor) (v1 v2 i : Nat)
    (hp : s.positive_hysteresis = 0) (hn : s.negative_hysteresis = 0)
    (hv : v1 < v2) (hi : i < 6) :
    (3 ≤ i →
      ((ipmi_mc_sensor_set_value s v1).1.event_status).getD i 0 = 1 →
      ((ipmi_mc_sensor_set_value (ipmi_mc_sensor_set_value s v1).1 v2).1.event_status).getD i 0 = 1) ∧
    (i < 3 →
      ((ipmi_mc_sensor_set_value s v1).1.event_status).getD i 0 = 0 →
      ((ipmi_mc_sensor_set_value (ipmi_mc_sensor_set_value s v1).1 v2).1.event_status).getD i 0 = 0) := by
  rw [statusAfter s v1 i hi, statusAfter (ipmi_mc_sensor_set_value s v1).1 v2 i hi]
  exact threshNewStatus_mono { s with value := v1 }
    { (ipmi_mc_sensor_set_value s v1).1 with value := v2 } i rfl rfl hp hn hp hn hv
    (statusAfter s v1 i hi)

/-- A threshold sensor with zero hysteresis, all six thresholds
supported, thresholds 10..60, all events enabled, status clear. -/
def sensorW : Sensor :=
  { num := 5
    lun := 0
    sensor_type := 1
    event_reading_code := 1
    value := 70
    events_enabled := 1
    scanning_enabled := 1
    hysteresis_support := 0
    positive_hysteresis := 0
    negative_hysteresis := 0
    threshold_support := 2
    threshold_supported := [1, 1, 1, 1, 1, 1]
    thresholds := [10, 20, 30, 40, 50, 60]
    event_support := .per_state
    event_enabled_assert := List.replicate 15 1
    event_enabled_deassert := List.replicate 15 1
    event_status := List.replicate 15 0 }

/-- Witness for C9 at `sensorW`, values 52 then 60, upper-critical
slot i = 4 (threshold 50): the bit asserted at 52 stays asserted at
60. -/
theorem C9_threshold_monotone_witness :
    (sensorW.positive_hysteresis = 0 ∧ sensorW.negative_hysteresis = 0 ∧
      52 < 60 ∧ 4 < 6) ∧
    ((3 ≤ 4 →
        ((ipmi_mc_sensor_set_value sensorW 52).1.event_status).getD 4 0 = 1 →
        ((ipmi_mc_sensor_set_value (ipmi_mc_sensor_set_value sensorW 52).1 60).1.event_status).getD 4 0 = 1) ∧
     (4 < 3 →
        ((ipmi_mc_sensor_set_value sensorW 52).1.event_status).getD 4 0 = 0 →
        ((ipmi_mc_sensor_set_value (ipmi_mc_sensor_set_value sensorW 52).1 60).1.event_status).getD 4 0 = 0)) :=
  ⟨by decide, C9_threshold_monotone sensorW 52 60 4 rfl rfl (by decide) (by decide)⟩

/-- The selected-event loops of handle_set_sensor_event_enable: for
each set bit `j` of `byte`, write `opv` at slot `base + j` of the
enable array.  (For the second mask byte the C index `e` reaches 15,
one past the 15-slot array — `List.set` past the end models the write
landing outside the list; no claim exercises that slot.) -/
def setEnableBits (enabled : List Nat) (byte : Nat) (base opv : Nat) : List Nat :=
  (List.range 8).foldl
    (fun acc j => if (byte >>> j) &&& 1 = 1 then acc.set (base + j) opv else acc)
    enabled

/-- Apply both mask bytes (at request offsets `i0` and `i0+1`) to an
enable array, honouring the C's `if (msg->data_len <= i) break`. -/
def applyEnableMasks (enabled : List Nat) (msg : List Nat) (i0 opv : Nat) :
    List Nat :=
  if msg.length ≤ i0 then enabled
  else if msg.length ≤ i0 + 1 then setEnableBits enabled (msg.getD i0 0) 0 opv
  else setEnableBits (setEnableBits enabled (msg.getD i0 0) 0 opv)
    (msg.getD (i0 + 1) 0) 8 opv

/-- handle_set_sensor_event_enable.  The per-LUN sensor table slice is
a list of 255 optional sensors indexed by sensor number.  After the
support checks and the op decoding, bits 7 and 6 of the flags byte are
stored into events_enabled / scanning_enabled; for op 0 the C then
`return`s WITHOUT touching `rdata` or `*rdata_len`, so the response
buffer and length are handed back exactly as they came in. -/
def handle_set_sensor_event_enable (sensors : List (Option Sensor))
    (msg rdata : List Nat) (rdata_len : Nat) :
    List (Option Sensor) × List Nat × Nat :=
  if msg.length < 2 then
    (sensors, errReply rdata IPMI_REQUEST_DATA_LENGTH_INVALID_CC)
  else
    let sens_num := msg.getD 0 0
    if 255 ≤ sens_num then
      (sensors, errReply rdata IPMI_INVALID_DATA_FIELD_CC)
    else
      match sensors.getD sens_num none with
      | none => (sensors, errReply rdata IPMI_INVALID_DATA_FIELD_CC)
      | some sensor =>
        if sensor.event_support = EventSupport.no_events ∨
            sensor.event_support = EventSupport.global_enable then
          (sensors, errReply rdata IPMI_INVALID_CMD_CC)
        else
          let op := (msg.getD 1 0 >>> 4) &&& 3
          if sensor.event_support = EventSupport.entire_sensor ∧ op ≠ 0 then
            (sensors, errReply rdata IPMI_INVALID_DATA_FIELD_CC)
          else if op = 3 then
            (sensors, errReply rdata IPMI_INVALID_DATA_FIELD_CC)
          else
            let sensor1 := { sensor with
              events_enabled := (msg.getD 1 0 >>> 7) &&& 1
              scanning_enabled := (msg.getD 1 0 >>> 6) &&& 1 }
            if op = 0 then
              (sensors.set sens_num (some sensor1), rdata, rdata_len)
            else
              let opv := if op = 1 then 1 else 0
              let sensor2 := { sensor1 with
                event_enabled_assert :=
                  applyEnableMasks sensor1.event_enabled_assert msg 2 opv
                event_enabled_deassert :=
                  applyEnableMasks sensor1.event_enabled_deassert msg 4 opv }
              (sensors.set sens_num (some sensor2), rdata.set 0 0, 1)

/-- C10.  For a request of at least 2 bytes addressed to an existing
sensor with per-event or entire-sensor event support and op field
(bits 4..5 of the flags byte) zero, the handler stores bits 7 and 6 of
the flags byte into events_enabled and scanning_enabled and then
returns leaving the response buffer and `*rdata_len` exactly as the
caller passed them in. -/
theorem C10_event_enable_op0_leaves_response_untouched
    (sensors : List (Option Sensor)) (sensor : Sensor)
    (msg rdata : List Nat) (rdata_len n : Nat)
    (hlen : 2 ≤ msg.length) (hn : msg.getD 0 0 = n) (hn255 : n < 255)
    (hs : sensors.getD n none = some sensor)
    (hsupp : sensor.event_support = EventSupport.per_state ∨
             sensor.event_support = EventSupport.entire_sensor)
    (hop : (msg.getD 1 0 >>> 4) &&& 3 = 0) :
    handle_set_sensor_event_enable sensors msg rdata rdata_len
      = (sensors.set n (some { sensor with
            events_enabled := (msg.getD 1 0 >>> 7) &&& 1
            scanning_enabled := (msg.getD 1 0 >>> 6) &&& 1 }),
         rdata, rdata_len) := by
  have hneq : ¬ (sensor.event_support = EventSupport.no_events ∨
      sensor.event_support = EventSupport.global_enable) := by
    rcases hsupp with h | h <;> rw [h] <;> intro hc <;>
      rcases hc with hc | hc <;> exact EventSupport.noConfusion hc
  unfold handle_set_sensor_event_enable
  rw [if_neg (by omega)]
  simp only [hn, hs]
  rw [if_neg (by omega), if_neg hneq, if_neg (by rw [hop]; simp),
    if_neg (by rw [hop]; omega), if_pos hop]

/-- A 255-slot sensor table holding `sensorW` at sensor number 5. -/
def sensorTableW : List (Option Sensor) :=
  (List.replicate 255 (none : Option Sensor)).set 5 (some sensorW)

/-- Witness for C10: flags byte 0x80 (events on, scanning off, op 0)
to sensor 5 of `sensorTableW`; the stale response buffer [7, 7, 7] and
length 3 come back verbatim. -/
theorem C10_event_enable_op0_witness :
    (2 ≤ [5, 0x80].length ∧ [5, 0x80].getD 0 0 = 5 ∧ 5 < 255 ∧
      sensorTableW.getD 5 none = some sensorW ∧
      (([5, 0x80].getD 1 0 >>> 4) &&& 3 = 0)) ∧
    handle_set_sensor_event_enable sensorTableW [5, 0x80] [7, 7, 7] 3
      = (sensorTableW.set 5 (some { sensorW with
            events_enabled := 1
            scanning_enabled := 0 }),
         [7, 7, 7], 3) :=
  ⟨⟨by decide, by decide, by decide, by decide, by decide⟩,
   C10_event_enable_op0_leaves_response_untouched sensorTableW sensorW
     [5, 0x80] [7, 7, 7] 3 5 (by decide) (by decide) (by decide) (by decide)
     (Or.inl (by decide)) (by decide)⟩
